import Mathlib

/-!
Shallow embedding of the BuffetPOS table subsystem: the Fiber route table of
`main.go`, the `rest.tableHandler` HTTP handlers, and the
`middleware.AuthMiddleware` of the middleware package, translated function by
function from the Go source. Fiber specifics are modelled explicitly: each call
`c.Status(s).JSON(b)` appends a `Response` to the handler's write list (a later
call overwrites an earlier one, so the response actually sent is the last
write), `c.Locals` is the request-scoped context, and `c.Next()` is a boolean
flag on the middleware outcome.
-/

namespace BuffetPOS

/-- Model of `responses.TableDetail`: the table snapshot returned by query handlers.
Fields follow the spec data model (§3): id, name, capacity, occupancy status,
access code present only while occupied. Handlers treat it opaquely. -/
structure TableDetail where
  id : String
  tableName : String
  capacity : Nat
  isAvailable : Bool
  accessCode : Option String
deriving DecidableEq, Repr

/-- Model of `requests.AddTableRequest` (body of POST /manage/tables). -/
structure AddTableRequest where
  tableName : String
  capacity : Nat
deriving DecidableEq, Repr

/-- Model of `requests.EditTableRequest` (body of PUT /manage/tables). -/
structure EditTableRequest where
  tableID : String
  tableName : String
  capacity : Nat
deriving DecidableEq, Repr

/-- Model of `requests.AssignTableRequest` (body of POST /manage/tables/assign). -/
structure AssignTableRequest where
  tableID : String
deriving DecidableEq, Repr

/-- The JSON values this subsystem ever passes to `c.JSON(...)`:
`fiber.Map{"message": s}`, `fiber.Map{"error": s}`, the validation-error value
returned by `utils.ValidateStruct` serialized directly, a table snapshot, a
table list, or Go `nil` (serialized as JSON `null`). -/
inductive Body where
  | null
  | mapMessage (s : String)
  | mapError (s : String)
  | validation (v : String)
  | table (t : TableDetail)
  | tableList (ts : List TableDetail)
deriving DecidableEq, Repr

/-- One `c.Status(status).JSON(body)` call. -/
structure Response where
  status : Nat
  body : Body
deriving DecidableEq, Repr

/-- What one handler invocation did: the `c.Status(..).JSON(..)` calls in
program order, and whether the usecase/service layer was invoked. -/
structure HandlerOutcome where
  writes : List Response
  serviceCalled : Bool
deriving DecidableEq, Repr

/-- The response Fiber actually sends: the last body/status written. -/
def finalResponse (o : HandlerOutcome) : Option Response :=
  o.writes.getLast?

/-- The sentinel errors of the `exceptions` package, compared by identity in
the handlers' `switch err` statements, plus any other error value. -/
inductive ServiceErr where
  | duplicatedTableName
  | tableNotFound
  | tableAlreadyAssigned
  | other (msg : String)
deriving DecidableEq, Repr

/-- Model of `err.Error()` as used by the handlers' default branches. The sentinel
texts live in the `exceptions` package; only `other`'s text reaches a claim. -/
def ServiceErr.message : ServiceErr → String
  | .duplicatedTableName => "table name already exists"
  | .tableNotFound => "table not found"
  | .tableAlreadyAssigned => "table already assigned"
  | .other msg => msg

/-- Handler `tableHandler.AddTable` (part_000:43–71). `parsed` is the result of
`c.BodyParser(&req)` (on failure `req` stays the nil pointer, hence the
service/validator receive `none`); `validate` is `utils.ValidateStruct`;
`service` is `t.service.AddTable`. Note the parse-error branch writes a 400
response but does not `return`. -/
def addTableHandler (parsed : Except String AddTableRequest)
    (validate : Option AddTableRequest → Option String)
    (service : Option AddTableRequest → Option ServiceErr) : HandlerOutcome :=
  let req : Option AddTableRequest := parsed.toOption
  let parseWrites : List Response :=
    match parsed with
    | .error e => [⟨400, .mapError e⟩]
    | .ok _ => []
  match validate req with
  | some v => ⟨parseWrites ++ [⟨400, .validation v⟩], false⟩
  | none =>
    match service req with
    | some .duplicatedTableName =>
        ⟨parseWrites ++ [⟨400, .mapError "Table name already exists"⟩], true⟩
    | some e => ⟨parseWrites ++ [⟨500, .mapError e.message⟩], true⟩
    | none => ⟨parseWrites ++ [⟨200, .mapMessage "Table added successfully"⟩], true⟩

/-- Handler `tableHandler.FindAllTables` (part_000:83–91). -/
def findAllTablesHandler
    (service : Except ServiceErr (List TableDetail)) : HandlerOutcome :=
  match service with
  | .error e => ⟨[⟨500, .mapError e.message⟩], true⟩
  | .ok tables => ⟨[⟨200, .tableList tables⟩], true⟩

/-- Handler `tableHandler.FindTableByID` (part_000:104–127). `idParam` is the result
of `utils.ValidateUUID(c.Params("id"))`. -/
def findTableByIDHandler (idParam : Option String)
    (service : String → Except ServiceErr TableDetail) : HandlerOutcome :=
  match idParam with
  | none => ⟨[⟨400, .mapError "Invalid UUID"⟩], false⟩
  | some id =>
    match service id with
    | .error .tableNotFound => ⟨[⟨404, .mapError "Table not found"⟩], true⟩
    | .error e => ⟨[⟨500, .mapError e.message⟩], true⟩
    | .ok t => ⟨[⟨200, .table t⟩], true⟩

/-- Handler `tableHandler.Edit` (part_000:140–167). Same missing-`return` shape on the
parse-error branch as `AddTable`. -/
def editHandler (parsed : Except String EditTableRequest)
    (validate : Option EditTableRequest → Option String)
    (service : Option EditTableRequest → Option ServiceErr) : HandlerOutcome :=
  let req : Option EditTableRequest := parsed.toOption
  let parseWrites : List Response :=
    match parsed with
    | .error e => [⟨400, .mapError e⟩]
    | .ok _ => []
  match validate req with
  | some v => ⟨parseWrites ++ [⟨400, .validation v⟩], false⟩
  | none =>
    match service req with
    | some .tableNotFound =>
        ⟨parseWrites ++ [⟨400, .mapError "Table not found"⟩], true⟩
    | some e => ⟨parseWrites ++ [⟨500, .mapError e.message⟩], true⟩
    | none => ⟨parseWrites ++ [⟨200, .mapMessage "Table edited successfully"⟩], true⟩

/-- Handler `tableHandler.Delete` (part_000:180–202). -/
def deleteHandler (idParam : Option String)
    (service : String → Option ServiceErr) : HandlerOutcome :=
  match idParam with
  | none => ⟨[⟨400, .mapError "Invalid UUID"⟩], false⟩
  | some id =>
    match service id with
    | some .tableNotFound => ⟨[⟨400, .mapError "Table not found"⟩], true⟩
    | some e => ⟨[⟨500, .mapError e.message⟩], true⟩
    | none => ⟨[⟨200, .mapMessage "Table deleted successfully"⟩], true⟩

/-- Handler `tableHandler.AssignTable` (part_000:215–243). Same missing-`return`
shape on the parse-error branch; on success the updated snapshot is the body. -/
def assignTableHandler (parsed : Except String AssignTableRequest)
    (validate : Option AssignTableRequest → Option String)
    (service : Option AssignTableRequest → Except ServiceErr TableDetail) :
    HandlerOutcome :=
  let req : Option AssignTableRequest := parsed.toOption
  let parseWrites : List Response :=
    match parsed with
    | .error e => [⟨400, .mapError e⟩]
    | .ok _ => []
  match validate req with
  | some v => ⟨parseWrites ++ [⟨400, .validation v⟩], false⟩
  | none =>
    match service req with
    | .error .tableNotFound =>
        ⟨parseWrites ++ [⟨400, .mapError "Table not found"⟩], true⟩
    | .error .tableAlreadyAssigned =>
        ⟨parseWrites ++ [⟨400, .mapError "Table already assigned"⟩], true⟩
    | .error e => ⟨parseWrites ++ [⟨500, .mapError e.message⟩], true⟩
    | .ok t => ⟨parseWrites ++ [⟨200, .table t⟩], true⟩

/-- Handler `tableHandler.FindCustomerTable` (part_000:254–257).
`claims, _ := c.Locals("table").(*responses.TableDetail)`: a missing or
wrongly-typed context value leaves `claims` the nil pointer (`none`), which
`c.JSON` serializes as `null`; the status is unconditionally 200. -/
def findCustomerTableHandler (tableLocal : Option TableDetail) : HandlerOutcome :=
  match tableLocal with
  | some t => ⟨[⟨200, .table t⟩], false⟩
  | none => ⟨[⟨200, .null⟩], false⟩

/-- The identity claims embedded in a staff JWT (`token.Claims`). The spec
(§3) requires at minimum a role; the role set is open, so the role is a
string, possibly absent. -/
structure Claims where
  role : Option String
deriving DecidableEq, Repr

/-- What one middleware invocation did: the responses written, whether
`c.Next()` was called, and the value stored under the context key it owns. -/
structure MiddlewareOutcome where
  writes : List Response
  nextCalled : Bool
  locals : Option Claims
deriving DecidableEq, Repr

/-- Go `strings.HasPrefix`, on the character sequence of the string. -/
def hasPrefix (s pre : String) : Bool := pre.data.isPrefixOf s.data

/-- Go `strings.TrimPrefix`, on the character sequence of the string. -/
def trimPrefix (s pre : String) : String :=
  if hasPrefix s pre then ⟨s.data.drop pre.data.length⟩ else s

/-- Middleware `middleware.AuthMiddleware(cfg)` (part_000:268–293). `verify` models
`jwt.Parse(tokenStr, keyFunc)` followed by the `err != nil || !token.Valid`
check, with the process-wide `cfg.JWTSecret` baked in: it returns the token's
claims exactly when parsing and signature/validity verification succeed. -/
def authMiddleware (verify : String → Option Claims) (authHeader : String) :
    MiddlewareOutcome :=
  if hasPrefix authHeader "Bearer " then
    match verify (trimPrefix authHeader "Bearer ") with
    | some claims => ⟨[], true, some claims⟩
    | none => ⟨[⟨401, .mapMessage "Unauthorized"⟩], false, none⟩
  else ⟨[⟨401, .mapMessage "Unauthorized"⟩], false, none⟩

/-- Modelled from the spec: `middleware.RoleMiddleware` is invoked at
src/main.go:58 with `models.Employee, models.Manager` but its source is not
under src/. Spec §4.3: "For staff routes: identity must be present and
`identity.role ∈ requiredRoles`; otherwise `Forbidden`", surfaced as a
403-class rejection with the failure envelope of §6. `user` is the value the
authentication middleware stored under the context key `user`. -/
def roleMiddleware (allowed : List String) (user : Option Claims) :
    MiddlewareOutcome :=
  match user with
  | none => ⟨[⟨403, .mapError "Forbidden"⟩], false, none⟩
  | some claims =>
    match claims.role with
    | none => ⟨[⟨403, .mapError "Forbidden"⟩], false, user⟩
    | some r =>
      if allowed.contains r then ⟨[], true, user⟩
      else ⟨[⟨403, .mapError "Forbidden"⟩], false, user⟩

/-- Constant `models.Employee` (role constant; the models package is not under src/,
the name follows the spec role set {Employee, Manager}). -/
def Employee : String := "Employee"

/-- Constant `models.Manager`. -/
def Manager : String := "Manager"

/-- Outcome of running a request through the `/manage` group's middleware
chain of src/main.go:58: `AuthMiddleware` first, then `RoleMiddleware`
(Fiber runs group handlers in registration order, each reached only if the
previous called `c.Next()`), then the route handler. -/
structure ChainOutcome where
  response : Option Response
  roleMiddlewareReached : Bool
  handlerReached : Bool
deriving DecidableEq, Repr

/-- The `/manage` group pipeline of src/main.go:58 applied to one request:
`middleware.AuthMiddleware(cfg)` then
`middleware.RoleMiddleware(models.Employee, models.Manager)` then the route
handler `handler`. -/
def manageChain (verify : String → Option Claims) (authHeader : String)
    (handler : HandlerOutcome) : ChainOutcome :=
  let a := authMiddleware verify authHeader
  if a.nextCalled then
    let r := roleMiddleware [Employee, Manager] a.locals
    if r.nextCalled then ⟨finalResponse handler, true, true⟩
    else ⟨r.writes.getLast?, true, false⟩
  else ⟨a.writes.getLast?, false, false⟩

/-- One route registration in src/main.go, with the HTTP method, the path,
whether it sits in the `/manage` group (and is therefore wrapped by
`AuthMiddleware` + `RoleMiddleware`), and the handler it dispatches to. -/
structure Route where
  method : String
  path : String
  staffGuarded : Bool
  handler : String
deriving DecidableEq, Repr

/-- The complete route table registered by `main` (src/main.go:48–71). -/
def registeredRoutes : List Route :=
  [ ⟨"GET", "/swagger/*", false, "swagger.HandlerDefault"⟩,
    ⟨"GET", "/", false, "inline"⟩,
    ⟨"POST", "/auth/register", false, "userHandler.Register"⟩,
    ⟨"POST", "/auth/login", false, "userHandler.Login"⟩,
    ⟨"GET", "/manage/tables", true, "tableHandler.FindAllTables"⟩,
    ⟨"GET", "/manage/tables/:id", true, "tableHandler.FindTableByID"⟩,
    ⟨"POST", "/manage/tables", true, "tableHandler.AddTable"⟩,
    ⟨"PUT", "/manage/tables", true, "tableHandler.Edit"⟩,
    ⟨"DELETE", "/manage/tables/:id", true, "tableHandler.Delete"⟩,
    ⟨"GET", "/manage/categories", true, "categoryHandler.FindAllCategories"⟩,
    ⟨"GET", "/manage/categories/:id", true, "categoryHandler.FindCategoryByID"⟩,
    ⟨"POST", "/manage/categories", true, "categoryHandler.AddCategory"⟩,
    ⟨"GET", "/manage/menus", true, "menuHandler.FindAll"⟩,
    ⟨"GET", "/manage/menus/:id", true, "menuHandler.FindByID"⟩,
    ⟨"POST", "/manage/menus", true, "menuHandler.Create"⟩ ]

/-- A live table of the persisted store, for the spec-modelled service layer. -/
structure Table where
  id : String
  tableName : String
  capacity : Nat
  isAvailable : Bool
  accessCode : Option String
deriving DecidableEq, Repr

/-- Modelled from the spec: `usecases.TableService.AddTable` is not under src/
(only its caller, the REST handler, is). Spec §4.4: "Uniqueness check for
`name` is enforced at creation and edit time: the operation fails with
`DuplicateName` if another live table shares the proposed name (case-sensitive
exact match)"; the handler recognizes that failure as the sentinel
`exceptions.ErrDuplicatedTableName`. -/
def serviceAddTable (tables : List Table) (req : AddTableRequest) :
    Option ServiceErr :=
  if tables.any (fun t => t.tableName = req.tableName) then
    some .duplicatedTableName
  else none

/-- Modelled from the spec: `usecases.TableService.EditTable` is not under
src/. Spec §4.5: edit surfaces `NotFound` when the target id does not exist
and "additionally run[s] the uniqueness check from §4.4", failing with
`DuplicateName` if another live table shares the proposed name. -/
def serviceEditTable (tables : List Table) (req : EditTableRequest) :
    Option ServiceErr :=
  if tables.all (fun t => t.id ≠ req.tableID) then some .tableNotFound
  else if tables.any (fun t => t.id ≠ req.tableID ∧ t.tableName = req.tableName) then
    some .duplicatedTableName
  else none

/-- The `AddTable` endpoint under the spec-modelled service on store `tables`,
for a request body that parsed and passed struct validation. -/
def addTableEndpoint (tables : List Table) (req : AddTableRequest) :
    HandlerOutcome :=
  addTableHandler (.ok req) (fun _ => none)
    (fun o => match o with
      | some r => serviceAddTable tables r
      | none => none)

/-- Does a response body have the failure-envelope form {"error": ...}? -/
def Body.isErrorEnvelope : Body → Bool
  | .mapError _ => true
  | _ => false

/-- Envelope discipline for a mutating operation's write: a 200 carries a
{"message": ...} body; any non-200 carries {"error": ...} or the validator's
error value serialized directly. -/
def mutatingEnvelope (r : Response) : Prop :=
  if r.status = 200 then ∃ s, r.body = Body.mapMessage s
  else (∃ s, r.body = Body.mapError s) ∨ ∃ v, r.body = Body.validation v

/-- Envelope discipline for a query operation's write: a 200 carries the
resource (table, table list, or `null` snapshot) directly; any non-200
carries {"error": ...} or the validator's error value. -/
def queryEnvelope (r : Response) : Prop :=
  if r.status = 200 then
    (∃ t, r.body = Body.table t) ∨ (∃ ts, r.body = Body.tableList ts) ∨
      r.body = Body.null
  else (∃ s, r.body = Body.mapError s) ∨ ∃ v, r.body = Body.validation v

/-- C1: a request to a staff route whose Authorization header lacks the
`Bearer ` prefix (missing header included: `c.Get` returns `""`) or whose
token fails verification is answered 401 by `AuthMiddleware`, and neither
`RoleMiddleware` nor the route handler is ever reached — the outcome is
Unauthenticated, never Forbidden. -/
theorem auth_failure_short_circuits_manage_chain
    (verify : String → Option Claims) (authHeader : String)
    (handler : HandlerOutcome)
    (h : hasPrefix authHeader "Bearer " = false ∨
      verify (trimPrefix authHeader "Bearer ") = none) :
    manageChain verify authHeader handler =
      ⟨some ⟨401, Body.mapMessage "Unauthorized"⟩, false, false⟩ := by
  rcases h with h | h
  · simp [manageChain, authMiddleware, h]
  · rcases hp : hasPrefix authHeader "Bearer " with _ | _
    · simp [manageChain, authMiddleware, hp]
    · simp [manageChain, authMiddleware, hp, h]

/-- Witness for C1: a header without the `Bearer ` prefix, under a verifier
rejecting every token, yields the 401 short-circuit concretely. -/
theorem auth_failure_short_circuits_manage_chain_witness :
    manageChain (fun _ => none) "Token abc" ⟨[⟨200, Body.null⟩], true⟩ =
      ⟨some ⟨401, Body.mapMessage "Unauthorized"⟩, false, false⟩ :=
  auth_failure_short_circuits_manage_chain (fun _ => none) "Token abc"
    ⟨[⟨200, Body.null⟩], true⟩ (Or.inl (by decide))

/-- C7: the `/manage` chain is configured with roles {Employee, Manager}: a
valid staff token whose role is Employee or Manager passes `RoleMiddleware`
and the request reaches the handler, while a valid token with an absent or
unrecognized role (e.g. Guest) is rejected 403 without reaching the handler. -/
theorem role_gate_employee_manager
    (verify : String → Option Claims) (authHeader : String)
    (handler : HandlerOutcome) (claims : Claims)
    (hp : hasPrefix authHeader "Bearer " = true)
    (hv : verify (trimPrefix authHeader "Bearer ") = some claims) :
    ((claims.role = some Employee ∨ claims.role = some Manager) →
      manageChain verify authHeader handler = ⟨finalResponse handler, true, true⟩) ∧
    ((claims.role = none ∨
        ∃ r, claims.role = some r ∧ r ≠ Employee ∧ r ≠ Manager) →
      manageChain verify authHeader handler =
        ⟨some ⟨403, Body.mapError "Forbidden"⟩, true, false⟩) := by
  constructor
  · rintro (h | h) <;>
      simp [manageChain, authMiddleware, hp, hv, roleMiddleware, h, Employee, Manager]
  · rintro (h | ⟨r, hr, h1, h2⟩)
    · simp [manageChain, authMiddleware, hp, hv, roleMiddleware, h]
    · have h1' : r ≠ "Employee" := h1
      have h2' : r ≠ "Manager" := h2
      simp [manageChain, authMiddleware, hp, hv, roleMiddleware, hr, Employee, Manager,
        h1', h2']

/-- Witness for C7: a Guest-role token is rejected 403 on the `/manage`
chain while an Employee-role token reaches the handler. -/
theorem role_gate_employee_manager_witness :
    manageChain (fun _ => some ⟨some "Guest"⟩) "Bearer t" ⟨[⟨200, Body.null⟩], true⟩ =
      ⟨some ⟨403, Body.mapError "Forbidden"⟩, true, false⟩ ∧
    manageChain (fun _ => some ⟨some "Employee"⟩) "Bearer t" ⟨[⟨200, Body.null⟩], true⟩ =
      ⟨some ⟨200, Body.null⟩, true, true⟩ :=
  ⟨(role_gate_employee_manager (fun _ => some ⟨some "Guest"⟩) "Bearer t"
      ⟨[⟨200, Body.null⟩], true⟩ ⟨some "Guest"⟩ (by decide) rfl).2
      (Or.inr ⟨"Guest", rfl, by decide, by decide⟩),
    (role_gate_employee_manager (fun _ => some ⟨some "Employee"⟩) "Bearer t"
      ⟨[⟨200, Body.null⟩], true⟩ ⟨some "Employee"⟩ (by decide) rfl).1
      (Or.inl rfl)⟩

/-- C8: on a token that parses and verifies, `AuthMiddleware` writes no
response, stores exactly the token's claims under the context key `user`, and
calls `c.Next()` — its only effect; any token failing verification (bad
signature, malformed structure, expiry — all the cases where `jwt.Parse`
errors or `token.Valid` is false) is rejected 401. Statelessness holds by
construction: `authMiddleware` is a pure function of the header alone. -/
theorem auth_middleware_success_stores_claims_only
    (verify : String → Option Claims) (authHeader : String) :
    (∀ claims, hasPrefix authHeader "Bearer " = true →
      verify (trimPrefix authHeader "Bearer ") = some claims →
      authMiddleware verify authHeader = ⟨[], true, some claims⟩) ∧
    (hasPrefix authHeader "Bearer " = true →
      verify (trimPrefix authHeader "Bearer ") = none →
      authMiddleware verify authHeader =
        ⟨[⟨401, Body.mapMessage "Unauthorized"⟩], false, none⟩) := by
  constructor
  · intro claims hp hv; simp [authMiddleware, hp, hv]
  · intro hp hv; simp [authMiddleware, hp, hv]

/-- Witness for C8: a verifier accepting the token `t` with Employee claims
leads to no writes, `Next`, and the claims stored; rejecting it leads to 401. -/
theorem auth_middleware_success_stores_claims_only_witness :
    authMiddleware (fun _ => some ⟨some "Employee"⟩) "Bearer t" =
      ⟨[], true, some ⟨some "Employee"⟩⟩ ∧
    authMiddleware (fun _ => none) "Bearer t" =
      ⟨[⟨401, Body.mapMessage "Unauthorized"⟩], false, none⟩ :=
  ⟨(auth_middleware_success_stores_claims_only (fun _ => some ⟨some "Employee"⟩)
      "Bearer t").1 ⟨some "Employee"⟩ (by decide) rfl,
    (auth_middleware_success_stores_claims_only (fun _ => none) "Bearer t").2
      (by decide) rfl⟩

/-- C10: `FindCustomerTable` does no validation and no error handling: with a
table bound in the request context it answers 200 with that snapshot, and
with no (or a wrongly-typed) bound value it still answers 200 with a `null`
body — never an error status. -/
theorem find_customer_table_always_200 :
    findCustomerTableHandler none = ⟨[⟨200, Body.null⟩], false⟩ ∧
    ∀ t, findCustomerTableHandler (some t) = ⟨[⟨200, Body.table t⟩], false⟩ :=
  ⟨rfl, fun _ => rfl⟩

/-- C3 (counter-evidence): the route table `main` registers contains no
`POST /manage/tables/assign` and no `GET /customer/tables` entry, and no
registered route dispatches to `AssignTable` or `FindCustomerTable` — even
though the handlers exist and their own swagger annotations
(`@Router /manage/tables/assign [post]`, `@Router /customer/tables [get]`)
document both routes. -/
theorem assign_and_customer_routes_not_registered :
    registeredRoutes.all (fun r =>
      r.path ≠ "/manage/tables/assign" ∧ r.path ≠ "/customer/tables" ∧
      r.handler ≠ "tableHandler.AssignTable" ∧
      r.handler ≠ "tableHandler.FindCustomerTable") = true := by
  decide

/-- C2: for a parsed, validated assign request, `AssignTable` maps
`ErrTableNotFound` to 400 "Table not found", `ErrTableAlreadyAssigned` to 400
"Table already assigned" (propagated unchanged), any other service error to a
500 generic error, and success to 200 with the updated snapshot (carrying the
new access code) directly as the body. -/
theorem assign_table_error_mapping (req : AssignTableRequest)
    (validate : Option AssignTableRequest → Option String)
    (service : Option AssignTableRequest → Except ServiceErr TableDetail)
    (hval : validate (some req) = none) :
    (service (some req) = .error .tableNotFound →
      assignTableHandler (.ok req) validate service =
        ⟨[⟨400, Body.mapError "Table not found"⟩], true⟩) ∧
    (service (some req) = .error .tableAlreadyAssigned →
      assignTableHandler (.ok req) validate service =
        ⟨[⟨400, Body.mapError "Table already assigned"⟩], true⟩) ∧
    (∀ e, e ≠ ServiceErr.tableNotFound → e ≠ ServiceErr.tableAlreadyAssigned →
      service (some req) = .error e →
      assignTableHandler (.ok req) validate service =
        ⟨[⟨500, Body.mapError e.message⟩], true⟩) ∧
    (∀ t, service (some req) = .ok t →
      assignTableHandler (.ok req) validate service =
        ⟨[⟨200, Body.table t⟩], true⟩) := by
  refine ⟨fun hs => ?_, fun hs => ?_, fun e he1 he2 hs => ?_, fun t hs => ?_⟩
  · simp [assignTableHandler, Except.toOption, hval, hs]
  · simp [assignTableHandler, Except.toOption, hval, hs]
  · rcases e with _ | _ | _ | m
    · simp [assignTableHandler, Except.toOption, hval, hs, ServiceErr.message]
    · exact absurd rfl he1
    · exact absurd rfl he2
    · simp [assignTableHandler, Except.toOption, hval, hs, ServiceErr.message]
  · simp [assignTableHandler, Except.toOption, hval, hs]

/-- Witness for C2: with a service reporting the table missing, the handler
answers 400 "Table not found" concretely. -/
theorem assign_table_error_mapping_witness :
    assignTableHandler (.ok ⟨"7e000000"⟩) (fun _ => none)
      (fun _ => .error .tableNotFound) =
      ⟨[⟨400, Body.mapError "Table not found"⟩], true⟩ :=
  (assign_table_error_mapping ⟨"7e000000"⟩ (fun _ => none)
    (fun _ => .error .tableNotFound) rfl).1 rfl

/-- C4: `ErrTableNotFound` is surfaced as 404 by `FindTableByID` but as 400 by
`Edit`, `Delete` and `AssignTable`, in every case with body
{"error": "Table not found"}. -/
theorem table_not_found_status_split (id : String) (ereq : EditTableRequest)
    (areq : AssignTableRequest)
    (svcFind : String → Except ServiceErr TableDetail)
    (svcEdit : Option EditTableRequest → Option ServiceErr)
    (svcDelete : String → Option ServiceErr)
    (svcAssign : Option AssignTableRequest → Except ServiceErr TableDetail)
    (vE : Option EditTableRequest → Option String)
    (vA : Option AssignTableRequest → Option String)
    (hvE : vE (some ereq) = none) (hvA : vA (some areq) = none) :
    (svcFind id = .error .tableNotFound →
      findTableByIDHandler (some id) svcFind =
        ⟨[⟨404, Body.mapError "Table not found"⟩], true⟩) ∧
    (svcEdit (some ereq) = some .tableNotFound →
      editHandler (.ok ereq) vE svcEdit =
        ⟨[⟨400, Body.mapError "Table not found"⟩], true⟩) ∧
    (svcDelete id = some .tableNotFound →
      deleteHandler (some id) svcDelete =
        ⟨[⟨400, Body.mapError "Table not found"⟩], true⟩) ∧
    (svcAssign (some areq) = .error .tableNotFound →
      assignTableHandler (.ok areq) vA svcAssign =
        ⟨[⟨400, Body.mapError "Table not found"⟩], true⟩) := by
  refine ⟨fun hs => ?_, fun hs => ?_, fun hs => ?_, fun hs => ?_⟩
  · simp [findTableByIDHandler, hs]
  · simp [editHandler, Except.toOption, hvE, hs]
  · simp [deleteHandler, hs]
  · simp [assignTableHandler, Except.toOption, hvA, hs]

/-- Witness for C4: the same missing-table id is answered 404 by
`FindTableByID` and 400 by `Edit`, `Delete` and `AssignTable`. -/
theorem table_not_found_status_split_witness :
    findTableByIDHandler (some "9") (fun _ => .error .tableNotFound) =
      ⟨[⟨404, Body.mapError "Table not found"⟩], true⟩ ∧
    editHandler (.ok ⟨"9", "T9", 2⟩) (fun _ => none) (fun _ => some .tableNotFound) =
      ⟨[⟨400, Body.mapError "Table not found"⟩], true⟩ ∧
    deleteHandler (some "9") (fun _ => some .tableNotFound) =
      ⟨[⟨400, Body.mapError "Table not found"⟩], true⟩ ∧
    assignTableHandler (.ok ⟨"9"⟩) (fun _ => none) (fun _ => .error .tableNotFound) =
      ⟨[⟨400, Body.mapError "Table not found"⟩], true⟩ := by
  have h := table_not_found_status_split "9" ⟨"9", "T9", 2⟩ ⟨"9"⟩
    (fun _ => .error .tableNotFound) (fun _ => some .tableNotFound)
    (fun _ => some .tableNotFound) (fun _ => .error .tableNotFound)
    (fun _ => none) (fun _ => none) rfl rfl
  exact ⟨h.1 rfl, h.2.1 rfl, h.2.2.1 rfl, h.2.2.2 rfl⟩

/-- C9: in `AddTable`, `Edit` and `AssignTable` a body-parse failure writes a
400 response but does not return: control falls through to struct validation
and, if validation passes on the nil request, the service is still invoked —
the parse-error 400 is the first write, later overwritten. -/
theorem parse_error_falls_through (e1 e2 e3 : String)
    (vAdd : Option AddTableRequest → Option String)
    (vEdit : Option EditTableRequest → Option String)
    (vAssign : Option AssignTableRequest → Option String)
    (sAdd : Option AddTableRequest → Option ServiceErr)
    (sEdit : Option EditTableRequest → Option ServiceErr)
    (sAssign : Option AssignTableRequest → Except ServiceErr TableDetail)
    (h1 : vAdd none = none) (h2 : vEdit none = none) (h3 : vAssign none = none) :
    ((addTableHandler (.error e1) vAdd sAdd).serviceCalled = true ∧
      (addTableHandler (.error e1) vAdd sAdd).writes.head? =
        some ⟨400, Body.mapError e1⟩) ∧
    ((editHandler (.error e2) vEdit sEdit).serviceCalled = true ∧
      (editHandler (.error e2) vEdit sEdit).writes.head? =
        some ⟨400, Body.mapError e2⟩) ∧
    ((assignTableHandler (.error e3) vAssign sAssign).serviceCalled = true ∧
      (assignTableHandler (.error e3) vAssign sAssign).writes.head? =
        some ⟨400, Body.mapError e3⟩) := by
  refine ⟨?_, ?_, ?_⟩
  · rcases hs : sAdd none with _ | s
    · simp [addTableHandler, Except.toOption, h1, hs]
    · rcases s <;> simp [addTableHandler, Except.toOption, h1, hs]
  · rcases hs : sEdit none with _ | s
    · simp [editHandler, Except.toOption, h2, hs]
    · rcases s <;> simp [editHandler, Except.toOption, h2, hs]
  · rcases hs : sAssign none with s | s <;>
      rcases s <;> simp [assignTableHandler, Except.toOption, h3, hs]

/-- Witness for C9: with a validator that passes the nil request and a
succeeding service, a malformed `AddTable` body still reaches the service and
the parse-error 400 is the first of two writes. -/
theorem parse_error_falls_through_witness :
    (addTableHandler (.error "unexpected end of JSON input") (fun _ => none)
      (fun _ => none)).serviceCalled = true ∧
    (addTableHandler (.error "unexpected end of JSON input") (fun _ => none)
      (fun _ => none)).writes.head? =
      some ⟨400, Body.mapError "unexpected end of JSON input"⟩ :=
  (parse_error_falls_through "unexpected end of JSON input" "e" "e"
    (fun _ => none) (fun _ => none) (fun _ => none)
    (fun _ => none) (fun _ => none) (fun _ => .error .tableNotFound)
    rfl rfl rfl).1

/-- C5: creating a table whose name equals an existing live table's name
(case-sensitive exact match — string equality) fails with `DuplicateName`,
surfaced by `AddTable` as 400 {"error": "Table name already exists"}; a fresh
name succeeds with 200 {"message": "Table added successfully"}; and the same
uniqueness check applies at edit time: an edit whose target exists but whose
proposed name is held by another live table fails with `DuplicateName`. -/
theorem duplicate_table_name_rejected (tables : List Table)
    (req fresh : AddTableRequest) (ereq : EditTableRequest)
    (hdup : ∃ t ∈ tables, t.tableName = req.tableName)
    (hfresh : ∀ t ∈ tables, t.tableName ≠ fresh.tableName)
    (hedit1 : ∃ t ∈ tables, t.id = ereq.tableID)
    (hedit2 : ∃ t ∈ tables, t.id ≠ ereq.tableID ∧ t.tableName = ereq.tableName) :
    finalResponse (addTableEndpoint tables req) =
      some ⟨400, Body.mapError "Table name already exists"⟩ ∧
    finalResponse (addTableEndpoint tables fresh) =
      some ⟨200, Body.mapMessage "Table added successfully"⟩ ∧
    serviceEditTable tables ereq = some .duplicatedTableName := by
  have h1 : tables.any (fun t => t.tableName = req.tableName) = true := by
    simp only [List.any_eq_true, decide_eq_true_eq]
    exact hdup
  have h2 : tables.any (fun t => t.tableName = fresh.tableName) = false := by
    simp only [List.any_eq_false, decide_eq_true_eq]
    exact hfresh
  have h3 : ¬ ∀ x ∈ tables, ¬ x.id = ereq.tableID := by
    obtain ⟨t, ht, hid⟩ := hedit1
    exact fun hall => hall t ht hid
  have h4 : ∃ x ∈ tables, ¬ x.id = ereq.tableID ∧ x.tableName = ereq.tableName := by
    obtain ⟨t, ht, hne, hname⟩ := hedit2
    exact ⟨t, ht, hne, hname⟩
  refine ⟨?_, ?_, ?_⟩
  · simp [addTableEndpoint, addTableHandler, serviceAddTable, Except.toOption,
      finalResponse, h1]
  · simp [addTableEndpoint, addTableHandler, serviceAddTable, Except.toOption,
      finalResponse, h2]
  · simp [serviceEditTable, h3, h4]

/-- Witness for C5: with live tables T1 and T2, adding another "T1" is a 400
duplicate, adding "T3" succeeds, and editing T2 to be named "T1" is a
`DuplicateName` at the service. -/
theorem duplicate_table_name_rejected_witness :
    finalResponse (addTableEndpoint
        [⟨"1", "T1", 4, true, none⟩, ⟨"2", "T2", 4, true, none⟩] ⟨"T1", 4⟩) =
      some ⟨400, Body.mapError "Table name already exists"⟩ ∧
    finalResponse (addTableEndpoint
        [⟨"1", "T1", 4, true, none⟩, ⟨"2", "T2", 4, true, none⟩] ⟨"T3", 4⟩) =
      some ⟨200, Body.mapMessage "Table added successfully"⟩ ∧
    serviceEditTable [⟨"1", "T1", 4, true, none⟩, ⟨"2", "T2", 4, true, none⟩]
        ⟨"2", "T1", 4⟩ = some .duplicatedTableName :=
  duplicate_table_name_rejected
    [⟨"1", "T1", 4, true, none⟩, ⟨"2", "T2", 4, true, none⟩]
    ⟨"T1", 4⟩ ⟨"T3", 4⟩ ⟨"2", "T1", 4⟩
    ⟨⟨"1", "T1", 4, true, none⟩, by decide, rfl⟩
    (by decide)
    ⟨⟨"2", "T2", 4, true, none⟩, by decide, rfl⟩
    ⟨⟨"1", "T1", 4, true, none⟩, by decide, by decide, rfl⟩

/-- Every write of `AddTable` obeys the mutating-operation envelope. -/
theorem addTable_envelope (pa : Except String AddTableRequest)
    (va : Option AddTableRequest → Option String)
    (sa : Option AddTableRequest → Option ServiceErr) :
    ∀ r ∈ (addTableHandler pa va sa).writes, mutatingEnvelope r := by
  intro r hr
  rcases pa with e | q
  · simp only [addTableHandler, Except.toOption] at hr
    rcases hv : va none with _ | v
    · rw [hv] at hr
      rcases hs : sa none with _ | s
      · rw [hs] at hr
        simp at hr
        rcases hr with hr | hr <;> subst hr <;> simp [mutatingEnvelope]
      · rcases s <;> rw [hs] at hr <;> simp at hr <;>
          rcases hr with hr | hr <;> subst hr <;> simp [mutatingEnvelope]
    · rw [hv] at hr
      simp at hr
      rcases hr with hr | hr <;> subst hr <;> simp [mutatingEnvelope]
  · simp only [addTableHandler, Except.toOption] at hr
    rcases hv : va (some q) with _ | v
    · rw [hv] at hr
      rcases hs : sa (some q) with _ | s
      · rw [hs] at hr
        simp at hr
        subst hr
        simp [mutatingEnvelope]
      · rcases s <;> rw [hs] at hr <;> simp at hr <;> subst hr <;>
          simp [mutatingEnvelope]
    · rw [hv] at hr
      simp at hr
      subst hr
      simp [mutatingEnvelope]

/-- Every write of `Edit` obeys the mutating-operation envelope. -/
theorem edit_envelope (pe : Except String EditTableRequest)
    (ve : Option EditTableRequest → Option String)
    (se : Option EditTableRequest → Option ServiceErr) :
    ∀ r ∈ (editHandler pe ve se).writes, mutatingEnvelope r := by
  intro r hr
  rcases pe with e | q
  · simp only [editHandler, Except.toOption] at hr
    rcases hv : ve none with _ | v
    · rw [hv] at hr
      rcases hs : se none with _ | s
      · rw [hs] at hr
        simp at hr
        rcases hr with hr | hr <;> subst hr <;> simp [mutatingEnvelope]
      · rcases s <;> rw [hs] at hr <;> simp at hr <;>
          rcases hr with hr | hr <;> subst hr <;> simp [mutatingEnvelope]
    · rw [hv] at hr
      simp at hr
      rcases hr with hr | hr <;> subst hr <;> simp [mutatingEnvelope]
  · simp only [editHandler, Except.toOption] at hr
    rcases hv : ve (some q) with _ | v
    · rw [hv] at hr
      rcases hs : se (some q) with _ | s
      · rw [hs] at hr
        simp at hr
        subst hr
        simp [mutatingEnvelope]
      · rcases s <;> rw [hs] at hr <;> simp at hr <;> subst hr <;>
          simp [mutatingEnvelope]
    · rw [hv] at hr
      simp at hr
      subst hr
      simp [mutatingEnvelope]

/-- Every write of `Delete` obeys the mutating-operation envelope. -/
theorem delete_envelope (idParam : Option String)
    (sd : String → Option ServiceErr) :
    ∀ r ∈ (deleteHandler idParam sd).writes, mutatingEnvelope r := by
  intro r hr
  rcases idParam with _ | id
  · simp only [deleteHandler] at hr
    simp at hr
    subst hr
    simp [mutatingEnvelope]
  · simp only [deleteHandler] at hr
    rcases hs : sd id with _ | s
    · rw [hs] at hr
      simp at hr
      subst hr
      simp [mutatingEnvelope]
    · rcases s <;> rw [hs] at hr <;> simp at hr <;> subst hr <;>
        simp [mutatingEnvelope]

/-- Every write of `FindAllTables` obeys the query envelope. -/
theorem findAll_envelope (sl : Except ServiceErr (List TableDetail)) :
    ∀ r ∈ (findAllTablesHandler sl).writes, queryEnvelope r := by
  intro r hr
  rcases sl with e | ts <;> simp only [findAllTablesHandler] at hr <;>
    simp at hr <;> subst hr <;> simp [queryEnvelope]

/-- Every write of `FindTableByID` obeys the query envelope. -/
theorem findByID_envelope (idParam : Option String)
    (sf : String → Except ServiceErr TableDetail) :
    ∀ r ∈ (findTableByIDHandler idParam sf).writes, queryEnvelope r := by
  intro r hr
  rcases idParam with _ | id
  · simp only [findTableByIDHandler] at hr
    simp at hr
    subst hr
    simp [queryEnvelope]
  · simp only [findTableByIDHandler] at hr
    rcases hs : sf id with e | t
    · rcases e <;> rw [hs] at hr <;> simp at hr <;> subst hr <;>
        simp [queryEnvelope]
    · rw [hs] at hr
      simp at hr
      subst hr
      simp [queryEnvelope]

/-- Every write of `AssignTable` obeys the query envelope. -/
theorem assign_envelope (ps : Except String AssignTableRequest)
    (vs : Option AssignTableRequest → Option String)
    (ss : Option AssignTableRequest → Except ServiceErr TableDetail) :
    ∀ r ∈ (assignTableHandler ps vs ss).writes, queryEnvelope r := by
  intro r hr
  rcases ps with e | q
  · simp only [assignTableHandler, Except.toOption] at hr
    rcases hv : vs none with _ | v
    · rw [hv] at hr
      rcases hs : ss none with s | t
      · rcases s <;> rw [hs] at hr <;> simp at hr <;>
          rcases hr with hr | hr <;> subst hr <;> simp [queryEnvelope]
      · rw [hs] at hr
        simp at hr
        rcases hr with hr | hr <;> subst hr <;> simp [queryEnvelope]
    · rw [hv] at hr
      simp at hr
      rcases hr with hr | hr <;> subst hr <;> simp [queryEnvelope]
  · simp only [assignTableHandler, Except.toOption] at hr
    rcases hv : vs (some q) with _ | v
    · rw [hv] at hr
      rcases hs : ss (some q) with s | t
      · rcases s <;> rw [hs] at hr <;> simp at hr <;> subst hr <;>
          simp [queryEnvelope]
      · rw [hs] at hr
        simp at hr
        subst hr
        simp [queryEnvelope]
    · rw [hv] at hr
      simp at hr
      subst hr
      simp [queryEnvelope]

/-- Middleware `AuthMiddleware` writes only the 401 {"message": "Unauthorized"} body. -/
theorem auth_writes_shape (verify : String → Option Claims) (header : String) :
    ∀ r ∈ (authMiddleware verify header).writes,
      r = ⟨401, Body.mapMessage "Unauthorized"⟩ := by
  intro r hr
  rcases hp : hasPrefix header "Bearer " with _ | _ <;>
    simp only [authMiddleware, hp] at hr
  · simp at hr
    exact hr
  · rcases hv : verify (trimPrefix header "Bearer ") with _ | c <;>
      rw [hv] at hr <;> simp at hr
    exact hr

/-- C6 fails as stated: an authentication failure from `AuthMiddleware` (here
a missing Authorization header, `c.Get` returning `""`) is written with body
`{"message": "Unauthorized"}`, which is not of the form {"error": ...}. -/
theorem auth_failure_body_not_error_envelope :
    (authMiddleware (fun _ => none) "").writes =
      [⟨401, Body.mapMessage "Unauthorized"⟩] ∧
    Body.isErrorEnvelope (Body.mapMessage "Unauthorized") = false :=
  ⟨by decide, rfl⟩

/-- C6 amended: successful mutating operations answer {"message": ...},
successful queries answer the resource directly, and handler failures answer
{"error": ...} — except struct-validation failures, whose body is the
validator's error value serialized directly, and `AuthMiddleware` failures,
which answer {"message": "Unauthorized"} rather than an {"error": ...} body. -/
theorem response_envelope_discipline
    (pa : Except String AddTableRequest)
    (va : Option AddTableRequest → Option String)
    (sa : Option AddTableRequest → Option ServiceErr)
    (pe : Except String EditTableRequest)
    (ve : Option EditTableRequest → Option String)
    (se : Option EditTableRequest → Option ServiceErr)
    (idD : Option String) (sd : String → Option ServiceErr)
    (sl : Except ServiceErr (List TableDetail))
    (idF : Option String) (sf : String → Except ServiceErr TableDetail)
    (ps : Except String AssignTableRequest)
    (vs : Option AssignTableRequest → Option String)
    (ss : Option AssignTableRequest → Except ServiceErr TableDetail)
    (tl : Option TableDetail)
    (verify : String → Option Claims) (header : String) :
    (∀ r ∈ (addTableHandler pa va sa).writes, mutatingEnvelope r) ∧
    (∀ r ∈ (editHandler pe ve se).writes, mutatingEnvelope r) ∧
    (∀ r ∈ (deleteHandler idD sd).writes, mutatingEnvelope r) ∧
    (∀ r ∈ (findAllTablesHandler sl).writes, queryEnvelope r) ∧
    (∀ r ∈ (findTableByIDHandler idF sf).writes, queryEnvelope r) ∧
    (∀ r ∈ (assignTableHandler ps vs ss).writes, queryEnvelope r) ∧
    (∀ r ∈ (findCustomerTableHandler tl).writes, queryEnvelope r) ∧
    (∀ r ∈ (authMiddleware verify header).writes,
      r = ⟨401, Body.mapMessage "Unauthorized"⟩) := by
  refine ⟨addTable_envelope pa va sa, edit_envelope pe ve se,
    delete_envelope idD sd, findAll_envelope sl, findByID_envelope idF sf,
    assign_envelope ps vs ss, ?_, auth_writes_shape verify header⟩
  intro r hr
  rcases tl with _ | t <;> simp only [findCustomerTableHandler] at hr <;>
    simp at hr <;> subst hr <;> simp [queryEnvelope]

/-- Witness for the amended C6: concrete success and failure writes of
`AddTable` and the concrete 401 write of `AuthMiddleware`. -/
theorem response_envelope_discipline_witness :
    mutatingEnvelope ⟨200, Body.mapMessage "Table added successfully"⟩ ∧
    (⟨401, Body.mapMessage "Unauthorized"⟩ : Response) =
      ⟨401, Body.mapMessage "Unauthorized"⟩ :=
  ⟨(response_envelope_discipline (.ok ⟨"T1", 4⟩) (fun _ => none) (fun _ => none)
      (.ok ⟨"1", "T1", 4⟩) (fun _ => none) (fun _ => none)
      (some "1") (fun _ => none) (.ok []) (some "1")
      (fun _ => .error .tableNotFound) (.ok ⟨"1"⟩) (fun _ => none)
      (fun _ => .error .tableNotFound) none (fun _ => none) "").1
      ⟨200, Body.mapMessage "Table added successfully"⟩ (by decide),
    (response_envelope_discipline (.ok ⟨"T1", 4⟩) (fun _ => none) (fun _ => none)
      (.ok ⟨"1", "T1", 4⟩) (fun _ => none) (fun _ => none)
      (some "1") (fun _ => none) (.ok []) (some "1")
      (fun _ => .error .tableNotFound) (.ok ⟨"1"⟩) (fun _ => none)
      (fun _ => .error .tableNotFound) none (fun _ => none) "").2.2.2.2.2.2.2
      ⟨401, Body.mapMessage "Unauthorized"⟩ (by decide)⟩

/-- Witness for C10: a concrete bound snapshot is echoed with status 200. -/
theorem find_customer_table_always_200_witness :
    findCustomerTableHandler (some ⟨"1", "T1", 4, false, some "123456"⟩) =
      ⟨[⟨200, Body.table ⟨"1", "T1", 4, false, some "123456"⟩⟩], false⟩ :=
  find_customer_table_always_200.2 ⟨"1", "T1", 4, false, some "123456"⟩

end BuffetPOS
